import Mathlib

/-!
Shallow embedding of `TM1py/Utils/Utils.py`: the case-and-space-insensitive
ordered dictionaries, the address-tuple sorter and the cellset flattener,
together with proofs of the specified properties.
-/

set_option autoImplicit false

namespace TM1py

/-- Python `key.lower().replace(' ', '')`: lower-case and remove all space characters. -/
def normalize (s : String) : String :=
  String.mk ((s.data.map Char.toLower).filter (fun c => c ≠ ' '))

/-- Component-wise normalization of a tuple key
(`tuple([item.lower().replace(' ', '') for item in key])`). -/
def normalizeTuple (k : List String) : List String :=
  k.map normalize

/-- The failure modes of the embedded code: `KeyError` on dictionary lookups,
the `IndexError` raised by `sort_addresstuple` when no label matches a
dimension (named `DimensionNotFound` in the design), and malformed-structure
accesses (missing axes, cells or cell properties). -/
inductive Err where
  | keyNotFound
  | dimensionNotFound
  | structureError
deriving DecidableEq

deriving instance DecidableEq for Except

/-- Python `s.startswith(p)`: `p` is a character-wise prefix of `s`
(a structurally recursive model of the byte-prefix test). -/
def strStartsWith (s p : String) : Bool :=
  go s.data p.data
where
  /-- Character-list prefix test. -/
  go : List Char → List Char → Bool
  | _, [] => true
  | [], _ :: _ => false
  | c :: cs, d :: ds => c = d && go cs ds

/-! ### Generic ordered store

Both `CaseAndSpaceInsensitiveDict` and `CaseAndSpaceInsensitiveTuplesDict`
keep an `OrderedDict` mapping the normalized key to the pair
`(original key, value)`.  We model that `_store` as a list of triples
`(normalized key, original key, value)` in insertion order, with
`OrderedDict` assignment semantics: writing to an existing key updates the
entry in place, writing a new key appends at the end. -/

section Store

variable {κ α : Type} [DecidableEq κ]

/-- The normalized keys of a store, in insertion order. -/
def normKeys (s : List (κ × κ × α)) : List κ :=
  s.map (fun e => e.1)

/-- The `OrderedDict` assignment `self._store[nk] = (key, value)`:
update in place when `nk` is present, append otherwise. -/
def storeSet (s : List (κ × κ × α)) (nk : κ) (key : κ) (value : α) :
    List (κ × κ × α) :=
  if nk ∈ normKeys s then
    s.map (fun e => if e.1 = nk then (nk, key, value) else e)
  else
    s ++ [(nk, key, value)]

/-- Lookup `self._store[nk][1]`: the value stored under normalized key `nk`;
`KeyError` when absent. -/
def storeGet (s : List (κ × κ × α)) (nk : κ) : Except Err α :=
  match s.find? (fun e => e.1 = nk) with
  | some e => .ok e.2.2
  | none => .error .keyNotFound

/-- Rebuilding a store from its `(original key, value)` pairs with a
normalizer `norm`, as `__init__(data)` / `update` do: one assignment per
entry, in order.  This is what `copy()` performs. -/
def storeCopy (norm : κ → κ) (s : List (κ × κ × α)) : List (κ × κ × α) :=
  s.foldl (fun acc e => storeSet acc (norm e.2.1) e.2.1 e.2.2) []

/-- Well-formedness of a store that was built through the public interface:
every normalized key is the normalization of its original key, and
normalized keys are pairwise distinct. -/
def storeWF (norm : κ → κ) (s : List (κ × κ × α)) : Prop :=
  (∀ e ∈ s, e.1 = norm e.2.1) ∧ (normKeys s).Nodup

end Store

/-! ### CaseAndSpaceInsensitiveDict -/

/-- A case-and-space-insensitive dict-like object with String keys,
modelled by its `_store`. -/
structure CaseAndSpaceInsensitiveDict (α : Type) where
  store : List (String × String × α)
deriving DecidableEq

namespace CaseAndSpaceInsensitiveDict

variable {α : Type}

/-- The empty dictionary. -/
def empty : CaseAndSpaceInsensitiveDict α := ⟨[]⟩

/-- Python `__setitem__`: store `(key, value)` under the adjusted (normalized) key. -/
def setItem (m : CaseAndSpaceInsensitiveDict α) (key : String) (value : α) :
    CaseAndSpaceInsensitiveDict α :=
  ⟨storeSet m.store (normalize key) key value⟩

/-- Python `__getitem__`: look up by the adjusted key; `KeyError` when absent. -/
def getItem (m : CaseAndSpaceInsensitiveDict α) (key : String) : Except Err α :=
  storeGet m.store (normalize key)

/-- Python `__len__`. -/
def length (m : CaseAndSpaceInsensitiveDict α) : Nat :=
  m.store.length

/-- Python `__iter__`: the original-case (display) keys, in insertion order. -/
def keysList (m : CaseAndSpaceInsensitiveDict α) : List String :=
  m.store.map (fun e => e.2.1)

/-- The stored values, in insertion order. -/
def valuesList (m : CaseAndSpaceInsensitiveDict α) : List α :=
  m.store.map (fun e => e.2.2)

/-- Python `copy()`: a new dictionary built from the `(cased key, value)` pairs of
`self._store.values()`. -/
def copy (m : CaseAndSpaceInsensitiveDict α) : CaseAndSpaceInsensitiveDict α :=
  ⟨storeCopy normalize m.store⟩

/-- The invariant every dictionary reachable through the public interface
satisfies. -/
def WF (m : CaseAndSpaceInsensitiveDict α) : Prop :=
  storeWF normalize m.store

end CaseAndSpaceInsensitiveDict

/-! ### CaseAndSpaceInsensitiveTuplesDict -/

/-- A case-and-space-insensitive dict-like object with String-tuple keys,
modelled by its `_store`. -/
structure CaseAndSpaceInsensitiveTuplesDict (α : Type) where
  store : List (List String × List String × α)
deriving DecidableEq

namespace CaseAndSpaceInsensitiveTuplesDict

variable {α : Type}

/-- The empty dictionary. -/
def empty : CaseAndSpaceInsensitiveTuplesDict α := ⟨[]⟩

/-- Python `__setitem__`: store `(key, value)` under the component-wise adjusted key. -/
def setItem (m : CaseAndSpaceInsensitiveTuplesDict α) (key : List String)
    (value : α) : CaseAndSpaceInsensitiveTuplesDict α :=
  ⟨storeSet m.store (normalizeTuple key) key value⟩

/-- Python `__getitem__`: look up by the component-wise adjusted key. -/
def getItem (m : CaseAndSpaceInsensitiveTuplesDict α) (key : List String) :
    Except Err α :=
  storeGet m.store (normalizeTuple key)

/-- Python `__len__`. -/
def length (m : CaseAndSpaceInsensitiveTuplesDict α) : Nat :=
  m.store.length

/-- Python `__iter__`: the original-case (display) keys, in insertion order. -/
def keysList (m : CaseAndSpaceInsensitiveTuplesDict α) : List (List String) :=
  m.store.map (fun e => e.2.1)

/-- The stored values, in insertion order. -/
def valuesList (m : CaseAndSpaceInsensitiveTuplesDict α) : List α :=
  m.store.map (fun e => e.2.2)

/-- Python `copy()`: a new dictionary built from the `(cased key, value)` pairs of
`self._store.values()`. -/
def copy (m : CaseAndSpaceInsensitiveTuplesDict α) :
    CaseAndSpaceInsensitiveTuplesDict α :=
  ⟨storeCopy normalizeTuple m.store⟩

/-- The invariant every dictionary reachable through the public interface
satisfies. -/
def WF (m : CaseAndSpaceInsensitiveTuplesDict α) : Prop :=
  storeWF normalizeTuple m.store

end CaseAndSpaceInsensitiveTuplesDict

/-! ### sort_addresstuple -/

/-- Python `sort_addresstuple`: for each dimension in order, pick the first label of
`unsorted` beginning with `"[" + dimension + "]."`; the `address_element[0]`
access raises when no label matches (`DimensionNotFound`). -/
def sort_addresstuple (dimension_order : List String)
    (unsorted_addresstuple : List String) : Except Err (List String) :=
  match dimension_order with
  | [] => .ok []
  | dimension :: rest =>
    match unsorted_addresstuple.filter
        (fun item => strStartsWith item ("[" ++ dimension ++ "].")) with
    | [] => .error .dimensionNotFound
    | address_element :: _ => do
      let tail ← sort_addresstuple rest unsorted_addresstuple
      return address_element :: tail

/-! ### The raw cellset data model -/

/-- A member descriptor: `{'UniqueName': ...}`. -/
structure Member where
  UniqueName : String
deriving DecidableEq

/-- An axis tuple: `{'Members': [...]}`. -/
structure AxisTuple where
  Members : List Member
deriving DecidableEq

/-- An axis: `{'Cardinality': ..., 'Tuples': [...]}`. -/
structure Axis where
  Cardinality : Nat
  Tuples : List AxisTuple
deriving DecidableEq

/-- A dimension descriptor: `{'Name': ...}`. -/
structure Dimension where
  Name : String
deriving DecidableEq

/-- The cube metadata: `{'Dimensions': [...]}`. -/
structure CubeInfo where
  Dimensions : List Dimension
deriving DecidableEq

/-- One record of the flat `Cells` array: named properties with their raw
values (`Value`, `Ordinal`, ...). -/
abbrev CellRecord := List (String × Int)

/-- The raw cellset as deserialized from the REST response. -/
structure RawCellset where
  Cube : CubeInfo
  Axes : List Axis
  Cells : List CellRecord
deriving DecidableEq

/-- List indexing `l[i]`; out-of-range raises (`StructureError`). -/
def getAt {β : Type} (l : List β) (i : Nat) : Except Err β :=
  match l.get? i with
  | some x => .ok x
  | none => .error .structureError

/-- Reading a named property from a cell record; a missing property
raises (`StructureError`). -/
def lookupProperty (cell : CellRecord) (p : String) : Except Err Int :=
  match cell.find? (fun e => e.1 = p) with
  | some e => .ok e.2
  | none => .error .structureError

/-- Plain-`dict` assignment `d[k] = v` used for the per-cell property map. -/
def pydictSet (d : CellRecord) (k : String) (v : Int) : CellRecord :=
  if k ∈ d.map (fun e => e.1) then
    d.map (fun e => if e.1 = k then (k, v) else e)
  else
    d ++ [(k, v)]

/-- Whether the early-exit condition `top is not None and ordinal_cells >= top`
holds. -/
def topReached (top : Option Nat) (ordinal_cells : Nat) : Bool :=
  match top with
  | none => false
  | some t => ordinal_cells ≥ t

/-- The per-cell property loop: for each requested property, read
`Cells[ordinal_cells][cell_property]` and store it in the cell's map. -/
def buildPropMap (cells : List CellRecord) (ordinal_cells : Nat)
    (cell_properties : List String) : Except Err CellRecord :=
  cell_properties.foldlM (fun d p => do
    let cell ← getAt cells ordinal_cells
    let v ← lookupProperty cell p
    return pydictSet d p v) []

/-- The inner (column) loop of `build_content_from_cellset`: one step per
remaining column index; stops early when `top` is reached after a cell. -/
def processCols (cube_dimensions : List String) (axe0 : Axis)
    (elements_on_axe2 elements_on_axe1 : List String)
    (cells : List CellRecord) (cell_properties : List String)
    (top : Option Nat) :
    List Nat → Nat → CaseAndSpaceInsensitiveTuplesDict CellRecord →
    Except Err (CaseAndSpaceInsensitiveTuplesDict CellRecord × Nat)
  | [], ordinal_cells, acc => .ok (acc, ordinal_cells)
  | j :: js, ordinal_cells, acc => do
    let tup ← getAt axe0.Tuples j
    let elements_on_axe0 := tup.Members.map (fun d => d.UniqueName)
    let coordinates := elements_on_axe0 ++ elements_on_axe2 ++ elements_on_axe1
    let coordinates_sorted ← sort_addresstuple cube_dimensions coordinates
    let propMap ← buildPropMap cells ordinal_cells cell_properties
    let acc := acc.setItem coordinates_sorted propMap
    let ordinal_cells := ordinal_cells + 1
    if topReached top ordinal_cells then
      return (acc, ordinal_cells)
    else
      processCols cube_dimensions axe0 elements_on_axe2 elements_on_axe1
        cells cell_properties top js ordinal_cells acc

/-- The outer (row) loop of `build_content_from_cellset`: resolve the row
tuple, run the column loop, and stop when `top` is reached. -/
def processRows (cube_dimensions : List String) (axe0 axe1 : Axis)
    (elements_on_axe2 : List String) (cells : List CellRecord)
    (cell_properties : List String) (top : Option Nat) :
    List Nat → Nat → CaseAndSpaceInsensitiveTuplesDict CellRecord →
    Except Err (CaseAndSpaceInsensitiveTuplesDict CellRecord)
  | [], _, acc => .ok acc
  | i :: is, ordinal_cells, acc => do
    let tup ← getAt axe1.Tuples i
    let elements_on_axe1 := tup.Members.map (fun d => d.UniqueName)
    let r ← processCols cube_dimensions axe0 elements_on_axe2 elements_on_axe1
      cells cell_properties top (List.range axe0.Cardinality) ordinal_cells acc
    if topReached top r.2 then
      return r.1
    else
      processRows cube_dimensions axe0 axe1 elements_on_axe2 cells
        cell_properties top is r.2 r.1

/-- Python `build_content_from_cellset`: transform raw cellset data into the
coordinate-keyed dictionary, reading at most `top` cells when `top` is set. -/
def build_content_from_cellset (raw_cellset_as_dict : RawCellset)
    (cell_properties : List String) (top : Option Nat) :
    Except Err (CaseAndSpaceInsensitiveTuplesDict CellRecord) := do
  let cube_dimensions := raw_cellset_as_dict.Cube.Dimensions.map
    (fun dim => dim.Name)
  let axe0_as_dict ← getAt raw_cellset_as_dict.Axes 0
  let axe1_as_dict ← getAt raw_cellset_as_dict.Axes 1
  let elements_on_axe2 ←
    if raw_cellset_as_dict.Axes.length > 2 then do
      let axe2_as_dict ← getAt raw_cellset_as_dict.Axes 2
      let tup ← getAt axe2_as_dict.Tuples 0
      pure (tup.Members.map (fun d => d.UniqueName))
    else
      pure ([] : List String)
  processRows cube_dimensions axe0_as_dict axe1_as_dict elements_on_axe2
    raw_cellset_as_dict.Cells cell_properties top
    (List.range axe1_as_dict.Cardinality) 0
    CaseAndSpaceInsensitiveTuplesDict.empty

/-! ### Lemmas about the generic store -/

section StoreLemmas

variable {κ α : Type} [DecidableEq κ]

theorem find?_update_self (s : List (κ × κ × α)) (nk k : κ) (v : α)
    (hmem : nk ∈ normKeys s) :
    (s.map (fun e => if e.1 = nk then (nk, k, v) else e)).find?
      (fun e => e.1 = nk) = some (nk, k, v) := by
  induction s with
  | nil => simp [normKeys] at hmem
  | cons e t ih =>
    by_cases he : e.1 = nk
    · simp [List.find?_cons, he]
    · have h2 : nk ∈ normKeys t := by
        simp only [normKeys, List.map_cons, List.mem_cons] at hmem
        rcases hmem with h | h
        · exact absurd h.symm he
        · exact h
      simp [List.find?_cons, he, ih h2]

theorem storeGet_storeSet_self (s : List (κ × κ × α)) (nk k : κ) (v : α) :
    storeGet (storeSet s nk k v) nk = .ok v := by
  unfold storeSet storeGet
  by_cases hmem : nk ∈ normKeys s
  · rw [if_pos hmem, find?_update_self s nk k v hmem]
  · rw [if_neg hmem, List.find?_append]
    have hnone : s.find? (fun e => e.1 = nk) = none := by
      rw [List.find?_eq_none]
      intro e hes
      simp only [decide_eq_true_eq]
      intro he
      exact hmem (by
        simp only [normKeys, List.mem_map]
        exact ⟨e, hes, he⟩)
    rw [hnone]
    simp

theorem storeGet_of_not_mem (s : List (κ × κ × α)) (nk : κ)
    (h : nk ∉ normKeys s) : storeGet s nk = .error .keyNotFound := by
  unfold storeGet
  have hnone : s.find? (fun e => e.1 = nk) = none := by
    rw [List.find?_eq_none]
    intro e hes
    simp only [decide_eq_true_eq]
    intro he
    exact h (by
      simp only [normKeys, List.mem_map]
      exact ⟨e, hes, he⟩)
  rw [hnone]

theorem normKeys_storeSet_of_mem (s : List (κ × κ × α)) (nk k : κ) (v : α)
    (h : nk ∈ normKeys s) :
    normKeys (storeSet s nk k v) = normKeys s := by
  unfold storeSet
  rw [if_pos h]
  unfold normKeys
  rw [List.map_map]
  apply List.map_congr_left
  intro e _
  by_cases h1 : e.1 = nk <;> simp [h1]

theorem normKeys_storeSet_of_not_mem (s : List (κ × κ × α)) (nk k : κ) (v : α)
    (h : nk ∉ normKeys s) :
    normKeys (storeSet s nk k v) = normKeys s ++ [nk] := by
  unfold storeSet
  rw [if_neg h]
  simp [normKeys]

theorem find?_update_of_ne (s : List (κ × κ × α)) (nk nk' k : κ) (v : α)
    (h : nk' ≠ nk) :
    (s.map (fun e => if e.1 = nk then (nk, k, v) else e)).find?
      (fun e => e.1 = nk') = s.find? (fun e => e.1 = nk') := by
  induction s with
  | nil => rfl
  | cons e t ih =>
    by_cases he : e.1 = nk
    · have hne : ¬(nk = nk') := fun hc => h hc.symm
      simp [List.find?_cons, he, hne, ih]
    · by_cases he2 : e.1 = nk'
      · simp [List.find?_cons, he, he2, h]
      · simp [List.find?_cons, he, he2, ih]

theorem storeGet_storeSet_of_ne (s : List (κ × κ × α)) (nk nk' k : κ) (v : α)
    (h : nk' ≠ nk) :
    storeGet (storeSet s nk k v) nk' = storeGet s nk' := by
  unfold storeSet storeGet
  by_cases hmem : nk ∈ normKeys s
  · rw [if_pos hmem, find?_update_of_ne s nk nk' k v h]
  · rw [if_neg hmem, List.find?_append]
    have hsing : ([(nk, k, v)] : List (κ × κ × α)).find?
        (fun e => e.1 = nk') = none := by
      have hne : ¬(nk = nk') := fun hc => h hc.symm
      simp [List.find?_cons, hne]
    rw [hsing, Option.or_none]

theorem storeCopy_aux (norm : κ → κ) (s : List (κ × κ × α)) :
    ∀ acc : List (κ × κ × α),
    (∀ e ∈ s, e.1 = norm e.2.1) → (normKeys (acc ++ s)).Nodup →
    s.foldl (fun a e => storeSet a (norm e.2.1) e.2.1 e.2.2) acc = acc ++ s := by
  induction s with
  | nil => intro acc _ _; simp
  | cons e t ih =>
    intro acc hnorm hnd
    have he1 : e.1 = norm e.2.1 := hnorm e (by simp)
    have hnotmem : norm e.2.1 ∉ normKeys acc := by
      intro hc
      rw [← he1] at hc
      have : ¬(normKeys (acc ++ e :: t)).Nodup := by
        simp only [normKeys, List.map_append, List.map_cons]
        intro hnd2
        rw [List.nodup_middle, List.nodup_cons] at hnd2
        exact hnd2.1 (by
          rw [List.mem_append]
          left
          simpa [normKeys] using hc)
      exact this hnd
    have hstep : storeSet acc (norm e.2.1) e.2.1 e.2.2 = acc ++ [e] := by
      unfold storeSet
      rw [if_neg hnotmem]
      congr 1
      rw [← he1]
    rw [List.foldl_cons, hstep]
    rw [ih (acc ++ [e]) (fun x hx => hnorm x (by simp [hx]))
      (by rw [List.append_assoc]; simpa using hnd)]
    simp

theorem storeCopy_eq (norm : κ → κ) (s : List (κ × κ × α))
    (h : storeWF norm s) : storeCopy norm s = s := by
  unfold storeCopy
  have := storeCopy_aux norm s [] h.1 (by simpa using h.2)
  simpa using this

end StoreLemmas

/-! ### Concrete cellsets used by the claims -/

/-- The synthetic cellset of the flatten round-trip property: 2 dimensions,
axis 0 (columns) of cardinality 2 over `dim2`, axis 1 (rows) of
cardinality 3 over `dim1`, no title axis, and 6 sequential cells whose
`Value` is the row-major cell index. -/
def c2_cellset : RawCellset :=
  { Cube := ⟨[⟨"dim1"⟩, ⟨"dim2"⟩]⟩
    Axes := [
      ⟨2, [⟨[⟨"[dim2].[c0]"⟩]⟩, ⟨[⟨"[dim2].[c1]"⟩]⟩]⟩,
      ⟨3, [⟨[⟨"[dim1].[r0]"⟩]⟩, ⟨[⟨"[dim1].[r1]"⟩]⟩, ⟨[⟨"[dim1].[r2]"⟩]⟩]⟩]
    Cells := [[("Value", 0)], [("Value", 1)], [("Value", 2)],
              [("Value", 3)], [("Value", 4)], [("Value", 5)]] }

/-- A cellset whose column member belongs to no declared dimension: the cube
declares `dim1` and `dim2`, but the coordinate only carries labels for
`dim1` and `dimX`, so `dim2` has no matching label. -/
def c6_cellset : RawCellset :=
  { Cube := ⟨[⟨"dim1"⟩, ⟨"dim2"⟩]⟩
    Axes := [
      ⟨1, [⟨[⟨"[dimX].[c0]"⟩]⟩]⟩,
      ⟨1, [⟨[⟨"[dim1].[r0]"⟩]⟩]⟩]
    Cells := [[("Value", 0)]] }

/-! ### The claims -/

/-- C1: the specification states that `limit = 0` returns an empty mapping
without reading any cell.  The code checks the limit only after processing a
cell, so with `top = 0` it stores the first cell (reading `Cells[0]`, whose
`Value` 0 appears in the single returned entry), contradicting both the
specification and the docstring `top: Maximum Number of cells`. -/
theorem claim_C1_limit_zero_processes_first_cell :
    build_content_from_cellset c2_cellset ["Value"] (some 0) =
      .ok ⟨[(["[dim1].[r0]", "[dim2].[c0]"], ["[dim1].[r0]", "[dim2].[c0]"],
            [("Value", 0)])]⟩ := by
  rfl

/-- C2: on the synthetic 2-dimension, 2-column by 3-row cellset with cell
values 0..5, the flattener with no limit produces exactly the 6
dimension-ordered coordinate pairs, and each coordinate's stored `Value` is
its row-major cell index. -/
theorem claim_C2_flatten_roundtrip :
    build_content_from_cellset c2_cellset ["Value"] none =
      .ok ⟨[(["[dim1].[r0]", "[dim2].[c0]"], ["[dim1].[r0]", "[dim2].[c0]"], [("Value", 0)]),
            (["[dim1].[r0]", "[dim2].[c1]"], ["[dim1].[r0]", "[dim2].[c1]"], [("Value", 1)]),
            (["[dim1].[r1]", "[dim2].[c0]"], ["[dim1].[r1]", "[dim2].[c0]"], [("Value", 2)]),
            (["[dim1].[r1]", "[dim2].[c1]"], ["[dim1].[r1]", "[dim2].[c1]"], [("Value", 3)]),
            (["[dim1].[r2]", "[dim2].[c0]"], ["[dim1].[r2]", "[dim2].[c0]"], [("Value", 4)]),
            (["[dim1].[r2]", "[dim2].[c1]"], ["[dim1].[r2]", "[dim2].[c1]"], [("Value", 5)])]⟩ ∧
    (build_content_from_cellset c2_cellset ["Value"] none).map
      (fun d => d.length) = .ok 6 ∧
    (build_content_from_cellset c2_cellset ["Value"] none).bind
      (fun d => d.getItem ["[dim1].[r0]", "[dim2].[c0]"]) = .ok [("Value", 0)] ∧
    (build_content_from_cellset c2_cellset ["Value"] none).bind
      (fun d => d.getItem ["[dim1].[r0]", "[dim2].[c1]"]) = .ok [("Value", 1)] ∧
    (build_content_from_cellset c2_cellset ["Value"] none).bind
      (fun d => d.getItem ["[dim1].[r1]", "[dim2].[c0]"]) = .ok [("Value", 2)] ∧
    (build_content_from_cellset c2_cellset ["Value"] none).bind
      (fun d => d.getItem ["[dim1].[r1]", "[dim2].[c1]"]) = .ok [("Value", 3)] ∧
    (build_content_from_cellset c2_cellset ["Value"] none).bind
      (fun d => d.getItem ["[dim1].[r2]", "[dim2].[c0]"]) = .ok [("Value", 4)] ∧
    (build_content_from_cellset c2_cellset ["Value"] none).bind
      (fun d => d.getItem ["[dim1].[r2]", "[dim2].[c1]"]) = .ok [("Value", 5)] := by
  refine ⟨rfl, rfl, rfl, rfl, rfl, rfl, rfl, rfl⟩

/-- C7: the same cellset with `limit = 3` yields exactly the entries of the
first 3 cells in row-major order. -/
theorem claim_C7_truncation :
    build_content_from_cellset c2_cellset ["Value"] (some 3) =
      .ok ⟨[(["[dim1].[r0]", "[dim2].[c0]"], ["[dim1].[r0]", "[dim2].[c0]"], [("Value", 0)]),
            (["[dim1].[r0]", "[dim2].[c1]"], ["[dim1].[r0]", "[dim2].[c1]"], [("Value", 1)]),
            (["[dim1].[r1]", "[dim2].[c0]"], ["[dim1].[r1]", "[dim2].[c0]"], [("Value", 2)])]⟩ := by
  rfl

/-- C4: setting `"Travel Expenses" := 1` and then `"travelexpenses" := 2` on an
empty dictionary leaves a single entry, reading `"Travel Expenses"` yields 2,
and iteration shows the last-written display key `"travelexpenses"`. -/
theorem claim_C4_display_key_stability :
    (((CaseAndSpaceInsensitiveDict.empty : CaseAndSpaceInsensitiveDict Int).setItem
        "Travel Expenses" 1).setItem "travelexpenses" 2).length = 1 ∧
    (((CaseAndSpaceInsensitiveDict.empty : CaseAndSpaceInsensitiveDict Int).setItem
        "Travel Expenses" 1).setItem "travelexpenses" 2).getItem "Travel Expenses" = .ok 2 ∧
    (((CaseAndSpaceInsensitiveDict.empty : CaseAndSpaceInsensitiveDict Int).setItem
        "Travel Expenses" 1).setItem "travelexpenses" 2).keysList = ["travelexpenses"] := by
  refine ⟨rfl, rfl, rfl⟩

/-- C3: after `set L v`, getting any variant with the same normalized form
returns `v`, for both the string-keyed and the tuple-keyed dictionaries
(component-wise for tuples); getting a key whose normalized form is absent
fails with `KeyNotFound`. -/
theorem claim_C3_insensitive_get :
    (∀ (α : Type) (m : CaseAndSpaceInsensitiveDict α) (L L' : String) (v : α),
        normalize L = normalize L' →
        (m.setItem L v).getItem L' = .ok v) ∧
    (∀ (α : Type) (m : CaseAndSpaceInsensitiveDict α) (L : String),
        normalize L ∉ normKeys m.store →
        m.getItem L = .error .keyNotFound) ∧
    (∀ (α : Type) (m : CaseAndSpaceInsensitiveTuplesDict α)
        (K K' : List String) (v : α),
        normalizeTuple K = normalizeTuple K' →
        (m.setItem K v).getItem K' = .ok v) ∧
    (∀ (α : Type) (m : CaseAndSpaceInsensitiveTuplesDict α) (K : List String),
        normalizeTuple K ∉ normKeys m.store →
        m.getItem K = .error .keyNotFound) := by
  refine ⟨?_, ?_, ?_, ?_⟩
  · intro α m L L' v hLL
    show storeGet (storeSet m.store (normalize L) L v) (normalize L') = .ok v
    rw [← hLL]
    exact storeGet_storeSet_self m.store (normalize L) L v
  · intro α m L h
    exact storeGet_of_not_mem m.store (normalize L) h
  · intro α m K K' v hKK
    show storeGet (storeSet m.store (normalizeTuple K) K v) (normalizeTuple K') = .ok v
    rw [← hKK]
    exact storeGet_storeSet_self m.store (normalizeTuple K) K v
  · intro α m K h
    exact storeGet_of_not_mem m.store (normalizeTuple K) h

/-- Witness for C3 at concrete inputs. -/
theorem claim_C3_insensitive_get_witness :
    (((CaseAndSpaceInsensitiveDict.empty : CaseAndSpaceInsensitiveDict Int).setItem
        "Travel Expenses" 100).getItem "TRAVEL expenses" = .ok 100) ∧
    ((CaseAndSpaceInsensitiveDict.empty : CaseAndSpaceInsensitiveDict Int).getItem
        "missing" = .error .keyNotFound) ∧
    (((CaseAndSpaceInsensitiveTuplesDict.empty :
        CaseAndSpaceInsensitiveTuplesDict Int).setItem
        ["[Business Unit].[UK]", "[Scenario].[Worst Case]"] 1000).getItem
        ["[BusinessUnit].[UK]", "[Scenario].[worstcase]"] = .ok 1000) ∧
    ((CaseAndSpaceInsensitiveTuplesDict.empty :
        CaseAndSpaceInsensitiveTuplesDict Int).getItem
        ["[Business Unit].[UK]"] = .error .keyNotFound) :=
  ⟨claim_C3_insensitive_get.1 Int CaseAndSpaceInsensitiveDict.empty
      "Travel Expenses" "TRAVEL expenses" 100 (by decide),
   claim_C3_insensitive_get.2.1 Int CaseAndSpaceInsensitiveDict.empty
      "missing" (by decide),
   claim_C3_insensitive_get.2.2.1 Int CaseAndSpaceInsensitiveTuplesDict.empty
      ["[Business Unit].[UK]", "[Scenario].[Worst Case]"]
      ["[BusinessUnit].[UK]", "[Scenario].[worstcase]"] 1000 (by decide),
   claim_C3_insensitive_get.2.2.2 Int CaseAndSpaceInsensitiveTuplesDict.empty
      ["[Business Unit].[UK]"] (by decide)⟩

/-- C5: iteration follows first-insertion order of normalized keys: setting an
existing normalized key keeps the normalized-key sequence (and hence every
entry's position) unchanged and leaves all other lookups intact, while
setting a fresh normalized key appends it at the end; likewise for the
tuple-keyed dictionary. -/
theorem claim_C5_insertion_order :
    (∀ (α : Type) (m : CaseAndSpaceInsensitiveDict α) (k : String) (v : α),
        normalize k ∈ normKeys m.store →
        normKeys (m.setItem k v).store = normKeys m.store ∧
        ∀ k' : String, normalize k' ≠ normalize k →
          (m.setItem k v).getItem k' = m.getItem k') ∧
    (∀ (α : Type) (m : CaseAndSpaceInsensitiveDict α) (k : String) (v : α),
        normalize k ∉ normKeys m.store →
        normKeys (m.setItem k v).store = normKeys m.store ++ [normalize k]) ∧
    (∀ (α : Type) (m : CaseAndSpaceInsensitiveTuplesDict α)
        (k : List String) (v : α),
        normalizeTuple k ∈ normKeys m.store →
        normKeys (m.setItem k v).store = normKeys m.store ∧
        ∀ k' : List String, normalizeTuple k' ≠ normalizeTuple k →
          (m.setItem k v).getItem k' = m.getItem k') ∧
    (∀ (α : Type) (m : CaseAndSpaceInsensitiveTuplesDict α)
        (k : List String) (v : α),
        normalizeTuple k ∉ normKeys m.store →
        normKeys (m.setItem k v).store = normKeys m.store ++ [normalizeTuple k]) := by
  refine ⟨?_, ?_, ?_, ?_⟩
  · intro α m k v h
    exact ⟨normKeys_storeSet_of_mem m.store (normalize k) k v h,
      fun k' hk' => storeGet_storeSet_of_ne m.store (normalize k)
        (normalize k') k v hk'⟩
  · intro α m k v h
    exact normKeys_storeSet_of_not_mem m.store (normalize k) k v h
  · intro α m k v h
    exact ⟨normKeys_storeSet_of_mem m.store (normalizeTuple k) k v h,
      fun k' hk' => storeGet_storeSet_of_ne m.store (normalizeTuple k)
        (normalizeTuple k') k v hk'⟩
  · intro α m k v h
    exact normKeys_storeSet_of_not_mem m.store (normalizeTuple k) k v h

/-- Witness for C5 at concrete inputs. -/
theorem claim_C5_insertion_order_witness :
    (normKeys ((CaseAndSpaceInsensitiveDict.mk
        [("ab", "A b", (1 : Int)), ("cd", "Cd", 2)]).setItem "A B" 9).store =
      ["ab", "cd"]) ∧
    (((CaseAndSpaceInsensitiveDict.mk
        [("ab", "A b", (1 : Int)), ("cd", "Cd", 2)]).setItem "A B" 9).getItem
        "c D" = (CaseAndSpaceInsensitiveDict.mk
        [("ab", "A b", (1 : Int)), ("cd", "Cd", 2)]).getItem "c D") ∧
    (normKeys ((CaseAndSpaceInsensitiveDict.mk
        [("ab", "A b", (1 : Int))]).setItem "New Key" 3).store =
      ["ab", "newkey"]) ∧
    (normKeys ((CaseAndSpaceInsensitiveTuplesDict.mk
        [(["ab"], ["A b"], (1 : Int))]).setItem ["a B"] 9).store = [["ab"]]) ∧
    (((CaseAndSpaceInsensitiveTuplesDict.mk
        [(["ab"], ["A b"], (1 : Int))]).setItem ["a B"] 9).getItem ["zz"] =
      (CaseAndSpaceInsensitiveTuplesDict.mk
        [(["ab"], ["A b"], (1 : Int))]).getItem ["zz"]) ∧
    (normKeys ((CaseAndSpaceInsensitiveTuplesDict.mk
        [(["ab"], ["A b"], (1 : Int))]).setItem ["New Key"] 3).store =
      [["ab"], ["newkey"]]) :=
  ⟨(claim_C5_insertion_order.1 Int (CaseAndSpaceInsensitiveDict.mk
      [("ab", "A b", 1), ("cd", "Cd", 2)]) "A B" 9 (by decide)).1,
   (claim_C5_insertion_order.1 Int (CaseAndSpaceInsensitiveDict.mk
      [("ab", "A b", 1), ("cd", "Cd", 2)]) "A B" 9 (by decide)).2 "c D" (by decide),
   claim_C5_insertion_order.2.1 Int (CaseAndSpaceInsensitiveDict.mk
      [("ab", "A b", 1)]) "New Key" 3 (by decide),
   (claim_C5_insertion_order.2.2.1 Int (CaseAndSpaceInsensitiveTuplesDict.mk
      [(["ab"], ["A b"], 1)]) ["a B"] 9 (by decide)).1,
   (claim_C5_insertion_order.2.2.1 Int (CaseAndSpaceInsensitiveTuplesDict.mk
      [(["ab"], ["A b"], 1)]) ["a B"] 9 (by decide)).2 ["zz"] (by decide),
   claim_C5_insertion_order.2.2.2 Int (CaseAndSpaceInsensitiveTuplesDict.mk
      [(["ab"], ["A b"], 1)]) ["New Key"] 3 (by decide)⟩

/-- C8: under the store invariant, `copy()` reproduces the source dictionary
exactly: same display keys, same values, same iteration order (the copy is a
distinct value, so later writes to it cannot alter the source). -/
theorem claim_C8_copy_independence :
    (∀ (α : Type) (m : CaseAndSpaceInsensitiveDict α), m.WF → m.copy = m) ∧
    (∀ (α : Type) (m : CaseAndSpaceInsensitiveTuplesDict α), m.WF → m.copy = m) := by
  constructor
  · intro α m h
    have hs : storeCopy normalize m.store = m.store :=
      storeCopy_eq normalize m.store h
    cases m
    simpa [CaseAndSpaceInsensitiveDict.copy] using hs
  · intro α m h
    have hs : storeCopy normalizeTuple m.store = m.store :=
      storeCopy_eq normalizeTuple m.store h
    cases m
    simpa [CaseAndSpaceInsensitiveTuplesDict.copy] using hs

/-- Witness for C8 at concrete inputs. -/
theorem claim_C8_copy_independence_witness :
    ((CaseAndSpaceInsensitiveDict.mk
        [("ab", "A b", (1 : Int)), ("cd", "Cd", 2)]).copy =
      CaseAndSpaceInsensitiveDict.mk
        [("ab", "A b", (1 : Int)), ("cd", "Cd", 2)]) ∧
    ((CaseAndSpaceInsensitiveTuplesDict.mk
        [(["ab", "cd"], ["A b", "cD"], (1 : Int))]).copy =
      CaseAndSpaceInsensitiveTuplesDict.mk
        [(["ab", "cd"], ["A b", "cD"], (1 : Int))]) :=
  ⟨claim_C8_copy_independence.1 Int (CaseAndSpaceInsensitiveDict.mk
      [("ab", "A b", 1), ("cd", "Cd", 2)]) (by constructor <;> decide),
   claim_C8_copy_independence.2 Int (CaseAndSpaceInsensitiveTuplesDict.mk
      [(["ab", "cd"], ["A b", "cD"], 1)]) (by constructor <;> decide)⟩

/-- C6: whenever some declared dimension has no label in the address tuple
starting with its qualifier, `sort_addresstuple` fails with
`DimensionNotFound`; and a cellset producing such a coordinate (here
`c6_cellset`, whose column label belongs to no declared dimension) makes the
whole flattening call fail with `DimensionNotFound`. -/
theorem claim_C6_dimension_not_found :
    (∀ (dimension_order unsorted : List String),
        (∃ d ∈ dimension_order, ∀ item ∈ unsorted,
            strStartsWith item ("[" ++ d ++ "].") = false) →
        sort_addresstuple dimension_order unsorted = .error .dimensionNotFound) ∧
    build_content_from_cellset c6_cellset ["Value"] none =
      .error .dimensionNotFound := by
  constructor
  · intro dimension_order unsorted
    induction dimension_order with
    | nil =>
      intro h
      rcases h with ⟨d, hd, _⟩
      exact absurd hd (List.not_mem_nil d)
    | cons d0 rest ih =>
      intro h
      rcases h with ⟨d, hd, hall⟩
      rcases List.mem_cons.mp hd with heq | hdrest
      · subst heq
        have hfilt : unsorted.filter
            (fun item => strStartsWith item ("[" ++ d ++ "].")) = [] := by
          rw [List.filter_eq_nil_iff]
          intro a ha
          simp [hall a ha]
        unfold sort_addresstuple
        rw [hfilt]
      · have hrest : sort_addresstuple rest unsorted =
            .error .dimensionNotFound := ih ⟨d, hdrest, hall⟩
        unfold sort_addresstuple
        cases hfilt0 : unsorted.filter
            (fun item => strStartsWith item ("[" ++ d0 ++ "].")) with
        | nil => rfl
        | cons x xs =>
          rw [hrest]
          rfl
  · rfl

/-- Witness for C6's universally quantified part at a concrete input. -/
theorem claim_C6_dimension_not_found_witness :
    sort_addresstuple ["dim2"] ["[dim1].[x]"] = .error .dimensionNotFound :=
  claim_C6_dimension_not_found.1 ["dim2"] ["[dim1].[x]"] (by decide)

/-- C9: the flattener unconditionally reads axes 0 and 1, so any raw cellset
with fewer than two axes makes it fail (with a structure error) before any
entry is stored. -/
theorem claim_C9_fewer_than_two_axes (raw : RawCellset)
    (cell_properties : List String) (top : Option Nat)
    (h : raw.Axes.length < 2) :
    build_content_from_cellset raw cell_properties top =
      .error .structureError := by
  obtain ⟨cube, axes, cells⟩ := raw
  match axes, h with
  | [], _ => rfl
  | [a], _ => rfl

/-- Witness for C9: a one-axis cellset. -/
theorem claim_C9_fewer_than_two_axes_witness :
    build_content_from_cellset ⟨⟨[⟨"dim1"⟩]⟩, [⟨1, [⟨[⟨"[dim1].[e]"⟩]⟩]⟩], []⟩
      ["Value"] none = .error .structureError :=
  claim_C9_fewer_than_two_axes
    ⟨⟨[⟨"dim1"⟩]⟩, [⟨1, [⟨[⟨"[dim1].[e]"⟩]⟩]⟩], []⟩ ["Value"] none (by decide)

/-- C10: dimension qualifiers are matched case- and space-sensitively: when
the single candidate label is qualified by a variant `d'` of the dimension
name `d` with the same normalized form but the label does not literally start
with the qualifier of `d`, `sort_addresstuple` fails with
`DimensionNotFound` — the dictionaries' normalization is never applied here. -/
theorem claim_C10_sensitive_matching (d d' e : String)
    (hnorm : normalize d' = normalize d)
    (hpre : strStartsWith ("[" ++ d' ++ "].[" ++ e ++ "]")
        ("[" ++ d ++ "].") = false) :
    sort_addresstuple [d] ["[" ++ d' ++ "].[" ++ e ++ "]"] =
      .error .dimensionNotFound := by
  unfold sort_addresstuple
  simp [List.filter, hpre]

/-- Witness for C10: `"businessunit"` normalizes like `"Business Unit"` yet
its qualifier does not match literally. -/
theorem claim_C10_sensitive_matching_witness :
    sort_addresstuple ["Business Unit"]
      ["[" ++ "businessunit" ++ "].[" ++ "UK" ++ "]"] =
      .error .dimensionNotFound :=
  claim_C10_sensitive_matching "Business Unit" "businessunit" "UK"
    (by decide) (by decide)

end TM1py
